import Mathlib

/-!
Shallow embedding of the HTTP/1.1 toy server in `src/main.rs`.

Strings from the Rust side are modelled as `List Char` (the streams in the
claims are ASCII, and `BufRead::read_line` yields UTF-8 text). Raw file
contents are modelled as `List Nat` (bytes), since `GET /files/*` goes
through `std::fs::read_to_string`, whose UTF-8 decoding step is modelled
explicitly. The TCP stream consumed by `read_stream` is a `List Char`.
-/

/-- ASCII fragment of Rust `char::is_whitespace` (plus U+0085 and U+00A0),
used by `str::trim` in `StartLine::try_from` and `Header::try_from`. -/
def rustWs (c : Char) : Bool :=
  decide (c = ' ' ∨ c = '\t' ∨ c = '\n' ∨ c = '\x0b' ∨ c = '\x0c' ∨ c = '\r' ∨
    c = '\x85' ∨ c = '\xa0')

/-- Rust `str::trim`: drop whitespace from both ends. -/
def trim (l : List Char) : List Char :=
  ((l.dropWhile rustWs).reverse.dropWhile rustWs).reverse

/-- `BufRead::read_line`: consume up to and including the first newline
(or the whole remaining stream at EOF); returns the line and the rest. -/
def readLine : List Char → List Char × List Char
  | [] => ([], [])
  | c :: cs =>
    if c = '\n' then ([c], cs)
    else
      let r := readLine cs
      (c :: r.1, r.2)

/-- Rust `s.splitn(2, sep)`: the part before the first separator, and
(when the separator occurs) the part after it. `none` in the second
component means the separator does not occur (a one-element split). -/
def splitOnceAt (sep : Char) : List Char → List Char × Option (List Char)
  | [] => ([], none)
  | c :: cs =>
    if c = sep then ([], some cs)
    else
      let r := splitOnceAt sep cs
      (c :: r.1, r.2)

/-- `l` starts with `p` (Rust `str::starts_with`). -/
def hasPre (p l : List Char) : Bool :=
  match p, l with
  | [], _ => true
  | _ :: _, [] => false
  | a :: ps, b :: ls => a == b && hasPre ps ls

/-- The Rust call removing a leading pattern `p`, unwrapped under a
`starts_with` guard. -/
def dropPre (p l : List Char) : List Char := l.drop p.length

/-- The `ends_with` test implicit in `str::strip_suffix`. -/
def hasSuf (suf l : List Char) : Bool :=
  decide (suf.length ≤ l.length ∧ l.drop (l.length - suf.length) = suf)

/-- Rust `str::strip_suffix`. -/
def stripSuf (suf l : List Char) : Option (List Char) :=
  if hasSuf suf l then some (l.take (l.length - suf.length)) else none

/-- Parse errors of the server (anyhow errors, labelled following the
error taxonomy of the spec). -/
inductive PErr where
  | badStartLine
  | unknownMethod
  | badContentLength
  | eofErr
deriving DecidableEq, Repr

/-- `enum Verb { Get, Post }`. -/
inductive Verb where
  | get
  | post
deriving DecidableEq, Repr

/-- `impl TryFrom<&str> for Verb`. -/
def Verb.tryFrom (s : List Char) : Except PErr Verb :=
  if s = ("GET").toList then .ok .get
  else if s = ("POST").toList then .ok .post
  else .error .unknownMethod

/-- `struct StartLine { verb, path }`. -/
structure StartLine where
  verb : Verb
  path : List Char
deriving DecidableEq, Repr

/-- The trailing sentinel checked by `StartLine::try_from`:
the literal `HTTP/1.1` followed by CRLF, with no space in front. -/
def startSentinel : List Char := ("HTTP/1.1\r\n").toList

/-- `impl TryFrom<&str> for StartLine`: strip the `HTTP/1.1\r\n` suffix
(else `BadStartLine`), trim the remainder, split on the first space into
exactly two components (else `BadStartLine`), resolve the verb. -/
def StartLine.tryFrom (l : List Char) : Except PErr StartLine :=
  match stripSuf startSentinel l with
  | none => .error .badStartLine
  | some stripped =>
    let v := trim stripped
    match splitOnceAt ' ' v with
    | (_, none) => .error .badStartLine
    | (m, some p) =>
      match Verb.tryFrom m with
      | .error e => .error e
      | .ok verb => .ok ⟨verb, p⟩

/-- `struct Header { key, value }`. -/
structure Header where
  key : List Char
  value : List Char
deriving DecidableEq, Repr

/-- `impl TryFrom<&str> for Header`: split on the first `:` into exactly
two components (else error), trim both sides. -/
def Header.tryFrom (l : List Char) : Except Unit Header :=
  match splitOnceAt ':' l with
  | (_, none) => .error ()
  | (k, some v) => .ok ⟨trim k, trim v⟩

/-- `struct Headers(Vec<Header>)`, as a plain list. -/
abbrev Headers := List Header

/-- `Headers::get`: first entry whose key equals `k`, if any. -/
def Headers.get : Headers → List Char → Option (List Char)
  | [], _ => none
  | h :: t, k => if h.key = k then some h.value else Headers.get t k

/-- The header loop of `read_stream`, fuelled. Each iteration reads one
line; a line containing a `:` is parsed (`Header::is_header` then
`Header::try_from`, both splitting on the first `:`) and appended; any
other line (the blank terminator included) ends the loop. Every
iteration consumes at least one character of the stream, so fuel
`s.length + 1` (supplied by `headersLoop`) never runs out. -/
def headersLoopF : Nat → List Char → Headers × List Char
  | 0, s => ([], s)
  | fuel + 1, s =>
    let r := readLine s
    match splitOnceAt ':' r.1 with
    | (k, some v) =>
      let t := headersLoopF fuel r.2
      (⟨trim k, trim v⟩ :: t.1, t.2)
    | (_, none) => ([], r.2)

/-- The header loop of `read_stream`. -/
def headersLoop (s : List Char) : Headers × List Char :=
  headersLoopF (s.length + 1) s

/-- Fold a list of ASCII digits into the number they denote. -/
def digitsToNat (l : List Char) : Nat :=
  l.foldl (fun a c => a * 10 + (c.toNat - 48)) 0

/-- Rust `str::parse::<usize>()`: an optional leading `+`, then one or
more ASCII digits, nothing else. -/
def parseUsize (l : List Char) : Option Nat :=
  let t := match l with
    | '+' :: r => r
    | _ => l
  if t ≠ [] ∧ t.all Char.isDigit then some (digitsToNat t) else none

/-- `struct Request(StartLine, Headers, Option<Body>)`; the body is the
byte buffer read by `read_exact`. -/
structure Request where
  startLine : StartLine
  headers : Headers
  body : Option (List Char)
deriving DecidableEq, Repr

/-- The header name looked up for the body length. -/
def clKey : List Char := ("Content-Length").toList

/-- `read_stream`: read the start line, loop over header lines, then, if
a `Content-Length` header is present, parse it (`BadContentLength` when
non-numeric) and `read_exact` that many bytes (`eofErr` when the stream
is too short); with no `Content-Length` the request has no body. -/
def readStream (s : List Char) : Except PErr Request :=
  let r1 := readLine s
  match StartLine.tryFrom r1.1 with
  | .error e => .error e
  | .ok sl =>
    let hr := headersLoop r1.2
    match Headers.get hr.1 clKey with
    | some v =>
      match parseUsize v with
      | none => .error .badContentLength
      | some n =>
        if n ≤ hr.2.length then .ok ⟨sl, hr.1, some (hr.2.take n)⟩
        else .error .eofErr
    | none => .ok ⟨sl, hr.1, none⟩

/-- A byte is a UTF-8 continuation byte (`0x80`–`0xBF`). -/
def isCont (b : Nat) : Bool := decide (0x80 ≤ b ∧ b ≤ 0xBF)

/-- Admissible second byte of a three-byte UTF-8 sequence headed by `b1`. -/
def utf8Cont2Ok (b1 b2 : Nat) : Bool :=
  if b1 = 0xE0 then decide (0xA0 ≤ b2 ∧ b2 ≤ 0xBF)
  else if b1 = 0xED then decide (0x80 ≤ b2 ∧ b2 ≤ 0x9F)
  else isCont b2

/-- Admissible second byte of a four-byte UTF-8 sequence headed by `b1`. -/
def utf8Cont3Ok (b1 b2 : Nat) : Bool :=
  if b1 = 0xF0 then decide (0x90 ≤ b2 ∧ b2 ≤ 0xBF)
  else if b1 = 0xF4 then decide (0x80 ≤ b2 ∧ b2 ≤ 0x8F)
  else isCont b2

/-- UTF-8 decoding (RFC 3629), modelling the validation done by
`std::fs::read_to_string`: `none` exactly when the bytes are not valid
UTF-8. -/
def utf8Decode : List Nat → Option (List Char)
  | [] => some []
  | b1 :: rest =>
    if b1 ≤ 0x7F then
      (utf8Decode rest).map (fun t => Char.ofNat b1 :: t)
    else if 0xC2 ≤ b1 ∧ b1 ≤ 0xDF then
      match rest with
      | b2 :: rest2 =>
        if isCont b2 then
          (utf8Decode rest2).map
            (fun t => Char.ofNat ((b1 - 0xC0) * 0x40 + (b2 - 0x80)) :: t)
        else none
      | [] => none
    else if 0xE0 ≤ b1 ∧ b1 ≤ 0xEF then
      match rest with
      | b2 :: b3 :: rest3 =>
        if utf8Cont2Ok b1 b2 && isCont b3 then
          (utf8Decode rest3).map
            (fun t =>
              Char.ofNat ((b1 - 0xE0) * 0x1000 + (b2 - 0x80) * 0x40 + (b3 - 0x80)) :: t)
        else none
      | _ => none
    else if 0xF0 ≤ b1 ∧ b1 ≤ 0xF4 then
      match rest with
      | b2 :: b3 :: b4 :: rest4 =>
        if utf8Cont3Ok b1 b2 && isCont b3 && isCont b4 then
          (utf8Decode rest4).map
            (fun t =>
              Char.ofNat ((b1 - 0xF0) * 0x40000 + (b2 - 0x80) * 0x1000 +
                (b3 - 0x80) * 0x40 + (b4 - 0x80)) :: t)
        else none
      | _ => none
    else none

/-- Rust `String::len`: the UTF-8 byte length of a string. -/
def rustLen (s : List Char) : Nat := (s.map Char.utf8Size).sum

/-- The filesystem visible to the server: an association of paths to raw
byte contents. The head of the list shadows later entries, so a
truncating `File::create` is modelled by consing. -/
structure FS where
  files : List (List Char × List Nat)
deriving DecidableEq, Repr

/-- Contents at a path, if the file exists (`std::fs::metadata` succeeds
exactly when this is `some`). -/
def FS.lookup (fs : FS) (p : List Char) : Option (List Nat) :=
  match fs.files.find? (fun e => e.1 == p) with
  | some e => some e.2
  | none => none

/-- `File::create` followed by `write_all`: (re)place the file. -/
def FS.create (fs : FS) (p : List Char) (bytes : List Nat) : FS :=
  ⟨(p, bytes) :: fs.files⟩

/-- `struct Args { directory: Option<PathBuf> }`. -/
structure Args where
  directory : Option (List Char)
deriving DecidableEq, Repr

/-- `PathBuf::join` for Unix: an absolute right operand replaces the
base, otherwise the two are joined with a separator. -/
def pathJoin (d n : List Char) : List Char :=
  if hasPre (("/").toList) n then n else d ++ ('/' :: n)

/-- Outcome of `handle_request` as observed by `main`: an `Ok(response)`
(written to the socket), an `Err` (main writes the 500 response), or a
panic inside the worker thread (nothing is written at all). -/
inductive Outcome where
  | ok (r : List Char)
  | err
  | panic
deriving DecidableEq, Repr

/-- Route prefixes and literal paths of the match in `handle_request`. -/
def echoPre : List Char := ("/echo/").toList

/-- The `/files/` route prefix. -/
def filesPre : List Char := ("/files/").toList

/-- The exact `/user-agent` path. -/
def uaPath : List Char := ("/user-agent").toList

/-- The `User-Agent` header name. -/
def uaKey : List Char := ("User-Agent").toList

/-- The catch-all response. -/
def resp404 : List Char := ("HTTP/1.1 404 Not Found\r\n\r\n404 Not Found").toList

/-- The `POST /files/*` success response. -/
def resp201 : List Char := ("HTTP/1.1 201 Created\r\n\r\n201 Created").toList

/-- The `GET /` response. -/
def respRoot : List Char := ("HTTP/1.1 200 OK\r\n\r\n200 OK").toList

/-- The response written by `main` when `handle_request` returns `Err`. -/
def resp500 : List Char :=
  ("HTTP/1.1 500 Internal Server Error\r\n\r\n500 Internal Server Error").toList

/-- The `GET /echo/{rest}` response. -/
def respEcho (toEcho : List Char) : List Char :=
  ("HTTP/1.1 200 OK\r\nContent-Type: text/plain\r\nContent-Length: ").toList ++
    (Nat.repr (rustLen toEcho)).toList ++ ("\r\n\r\n").toList ++ toEcho

/-- The `GET /user-agent` response. -/
def respUA (ua : List Char) : List Char :=
  ("HTTP/1.1 200 OK\r\nContent-Type: text/plain\r\nContent-Length: ").toList ++
    (Nat.repr (rustLen ua)).toList ++ ("\r\n\r\n").toList ++ ua

/-- The `GET /files/{name}` success response. -/
def respFile (contents : List Char) : List Char :=
  ("HTTP/1.1 200 OK\r\nContent-Type: application/octet-stream\r\nContent-Length: ").toList ++
    (Nat.repr (rustLen contents)).toList ++ ("\r\n\r\n").toList ++ contents

/-- The match in `handle_request` (lines 165–196), arm by arm in source
order, returning the outcome and the filesystem after any write. The
`.panic` outcomes are the two `Option::unwrap` calls on values that can
be `None` (`opts.directory` in the POST arm, and the `User-Agent`
lookup); `.err` is an error propagated with `?` (UTF-8 decoding failure
of `read_to_string`, or an unparsable `Content-Length` in the POST
arm). -/
def dispatch (verb : Verb) (path : List Char) (body : Option (List Char))
    (headers : Headers) (opts : Args) (fs : FS) : Outcome × FS :=
  if verb = .get ∧ hasPre echoPre path then
    (.ok (respEcho (dropPre echoPre path)), fs)
  else if verb = .post ∧ body.isSome ∧ hasPre filesPre path then
    match opts.directory with
    | none => (.panic, fs)
    | some d =>
      let filePath := pathJoin d (dropPre filesPre path)
      let fs1 := fs.create filePath []
      match Headers.get headers clKey with
      | none => (.panic, fs1)
      | some cl =>
        match parseUsize cl with
        | none => (.err, fs1)
        | some _ =>
          match body with
          | some b => (.ok resp201, fs1.create filePath (b.map Char.toNat))
          | none => (.err, fs1)
  else if verb = .get ∧ opts.directory.isSome ∧ hasPre filesPre path then
    match opts.directory with
    | none => (.err, fs)
    | some d =>
      let filePath := pathJoin d (dropPre filesPre path)
      match fs.lookup filePath with
      | some bytes =>
        match utf8Decode bytes with
        | some contents => (.ok (respFile contents), fs)
        | none => (.err, fs)
      | none => (.ok resp404, fs)
  else if verb = .get ∧ path = uaPath then
    match Headers.get headers uaKey with
    | none => (.panic, fs)
    | some ua => (.ok (respUA ua), fs)
  else if verb = .get ∧ path = ("/").toList then
    (.ok respRoot, fs)
  else
    (.ok resp404, fs)

/-- `handle_request`: parse the stream, then dispatch; a parse error is
propagated with `?`. -/
def handleRequest (stream : List Char) (opts : Args) (fs : FS) : Outcome × FS :=
  match readStream stream with
  | .error _ => (.err, fs)
  | .ok req => dispatch req.startLine.verb req.startLine.path req.body req.headers opts fs

/-- What the worker closure in `main` writes to the socket per outcome:
the response on `Ok`, the fixed 500 line on `Err`, and nothing when the
thread panics. -/
def workerOut : Outcome → Option (List Char)
  | .ok r => some r
  | .err => some resp500
  | .panic => none

/-- The argument flag recognized by `Args::new`. -/
def dirFlag : List Char := ("--directory").toList

/-- The `while let` loop of `Args::new`: on `--directory` the next
argument (or `None` at the end of the list) becomes the directory;
every other argument is skipped. -/
def argsLoop (acc : Option (List Char)) : List (List Char) → Option (List Char)
  | [] => acc
  | a :: rest =>
    if a = dirFlag then
      match rest with
      | [] => none
      | p :: rest2 => argsLoop (some p) rest2
    else argsLoop acc rest

/-- `Args::new` over the argument list (after `skip(1)`). -/
def Args.new (argv : List (List Char)) : Args := ⟨argsLoop none argv⟩

/-- A printable-ASCII character occupies one UTF-8 byte. -/
theorem utf8Size_of_ascii (c : Char) (h : c.toNat ≤ 0x7E) : c.utf8Size = 1 := by
  have hv : c.val ≤ UInt32.ofNatCore 0x7F (by decide) := by
    rw [UInt32.le_def, BitVec.le_def]
    exact Nat.le_trans h (by decide)
  simp only [Char.utf8Size]
  rw [if_pos hv]

/-- On ASCII strings the Rust byte length agrees with the character
count. -/
theorem rustLen_of_ascii (s : List Char) (h : ∀ c ∈ s, c.toNat ≤ 0x7E) :
    rustLen s = s.length := by
  induction s with
  | nil => rfl
  | cons c t ih =>
    have hc := utf8Size_of_ascii c (h c (List.mem_cons_self c t))
    have ht := ih (fun x hx => h x (List.mem_cons_of_mem c hx))
    simp [rustLen, List.map_cons, hc] at ht ⊢
    omega

/-- A list starts with itself followed by anything. -/
theorem hasPre_append (p s : List Char) : hasPre p (p ++ s) = true := by
  induction p with
  | nil => rfl
  | cons a t ih => simp [hasPre, ih]

/-- Removing a leading pattern from the corresponding append recovers
the tail. -/
theorem dropPre_append (p s : List Char) : dropPre p (p ++ s) = s := by
  simp [dropPre, List.drop_left]

/-- C1: the claim states that with no configured directory both
`GET /files/*` and `POST /files/*` (with body) are answered 404. The
GET route is (third conjunct): the directory guard of the GET arm fails
and the catch-all 404 is produced. The POST arm however matches without
checking the directory and calls `unwrap` on `opts.directory`, which is
`None`: the worker panics and nothing is written (first and second
conjuncts), contradicting the claimed 404 for POST. -/
theorem C1_files_nodir_post_panics :
    handleRequest (("POST /files/x HTTP/1.1\r\nContent-Length: 1\r\n\r\na").toList)
        ⟨none⟩ ⟨[]⟩ = (.panic, ⟨[]⟩) ∧
    workerOut .panic = none ∧
    handleRequest (("GET /files/x HTTP/1.1\r\n\r\n").toList) ⟨none⟩ ⟨[]⟩ =
      (.ok resp404, ⟨[]⟩) :=
  ⟨rfl, rfl, rfl⟩

/-- C2: the claim states that `GET /user-agent` without a `User-Agent`
header yields a 500 response. In the code the arm calls
`headers.get("User-Agent").unwrap()` (marked `TODO: Handle`), which
panics on `None`: the worker thread dies and nothing at all is written
to the socket, so no 500 response is produced. -/
theorem C2_user_agent_missing_panics :
    handleRequest (("GET /user-agent HTTP/1.1\r\nHost: x\r\n\r\n").toList)
        ⟨none⟩ ⟨[]⟩ = (.panic, ⟨[]⟩) ∧
    workerOut .panic = none :=
  ⟨rfl, rfl⟩

/-- C3: the claim states that when stat succeeds the response is 200
with the file bytes verbatim (byte-exact even for non-UTF-8 content),
and 404 on any error. For a file holding the single byte `0xFF`
(not valid UTF-8) stat succeeds but `read_to_string` fails; the error
propagates out of `handle_request` with `?` and the worker writes the
500 response — neither the claimed 200-with-exact-bytes nor a 404. -/
theorem C3_nonutf8_file_errors :
    handleRequest (("GET /files/b HTTP/1.1\r\n\r\n").toList)
        ⟨some (("/d").toList)⟩ ⟨[((("/d/b").toList), [0xFF])]⟩ =
      (.err, ⟨[((("/d/b").toList), [0xFF])]⟩) ∧
    workerOut .err = some resp500 :=
  ⟨rfl, rfl⟩

/-- C4 counterexample: the claim requires the line to end with the
literal ` HTTP/1.1\r\n`, a space before the version sentinel, so the
line `GET /HTTP/1.1\r\n` (no space before `HTTP/1.1`) would have to
fail with BadStartLine. The code strips only `HTTP/1.1\r\n` and then
trims, so this line parses successfully as method `GET`, target `/`. -/
theorem C4_no_space_before_sentinel_parses :
    StartLine.tryFrom (("GET /HTTP/1.1\r\n").toList) = .ok ⟨.get, ("/").toList⟩ :=
  rfl

/-- C4 amended: start-line parsing succeeds only if the line ends with
the literal `HTTP/1.1\r\n` (no space before the sentinel is required;
the remaining prefix is whitespace-trimmed before being split on the
first space into exactly a method token and a target); any line not
ending with `HTTP/1.1\r\n` fails with BadStartLine, as does a
sentinel-terminated line whose trimmed prefix contains no space, and
the worker maps every parse error to a 500 response. -/
theorem C4_sentinel_and_500 (l stream : List Char) (cfg : Args) (fs : FS) :
    (hasSuf startSentinel l = false → StartLine.tryFrom l = .error .badStartLine) ∧
    (∀ stripped, stripSuf startSentinel l = some stripped →
      (splitOnceAt ' ' (trim stripped)).2 = none →
      StartLine.tryFrom l = .error .badStartLine) ∧
    ((handleRequest stream cfg fs).1 = .err →
      workerOut (handleRequest stream cfg fs).1 = some resp500) := by
  refine ⟨fun h => ?_, fun stripped h1 h2 => ?_, fun h => ?_⟩
  · simp [StartLine.tryFrom, stripSuf, h]
  · rcases hsp : splitOnceAt ' ' (trim stripped) with ⟨a, o⟩
    rw [hsp] at h2
    dsimp only at h2
    subst h2
    simp [StartLine.tryFrom, h1, hsp]
  · rw [h]; rfl

/-- C4 witness: a start line with the wrong version fails with
BadStartLine; a sentinel-terminated line whose trimmed prefix contains
no space (`GET HTTP/1.1`) also fails with BadStartLine; and on a
failing stream the worker writes the 500 response. -/
theorem C4_sentinel_and_500_witness :
    StartLine.tryFrom (("GET / HTTP/1.0\r\n").toList) = .error .badStartLine ∧
    StartLine.tryFrom (("GET HTTP/1.1\r\n").toList) = .error .badStartLine ∧
    workerOut (handleRequest (("GET / HTTP/1.0\r\n\r\n").toList) ⟨none⟩ ⟨[]⟩).1 =
      some resp500 :=
  ⟨(C4_sentinel_and_500 (("GET / HTTP/1.0\r\n").toList)
      (("GET / HTTP/1.0\r\n\r\n").toList) ⟨none⟩ ⟨[]⟩).1 (by decide),
   (C4_sentinel_and_500 (("GET HTTP/1.1\r\n").toList)
      (("GET / HTTP/1.0\r\n\r\n").toList) ⟨none⟩ ⟨[]⟩).2.1 (("GET ").toList) rfl rfl,
   (C4_sentinel_and_500 (("GET / HTTP/1.0\r\n").toList)
      (("GET / HTTP/1.0\r\n\r\n").toList) ⟨none⟩ ⟨[]⟩).2.2 rfl⟩

/-- C5 counterexample: the claim states the HeaderBlock never contains
an entry with an empty trimmed name and that such a line fails with
BadHeader. The code never checks for emptiness: parsing a request whose
header line is `: x` succeeds, and the resulting block contains the
entry with empty name and value `x`. -/
theorem C5_empty_name_header_accepted :
    readStream (("GET / HTTP/1.1\r\n: x\r\n\r\n").toList) =
      .ok ⟨⟨.get, ("/").toList⟩, [⟨[], ("x").toList⟩], none⟩ :=
  rfl

/-- C5 amended: header parsing succeeds for every line containing a
colon, storing the whitespace-trimmed name and value, either of which
may be empty — so the HeaderBlock may contain entries whose name or
value is empty after trimming; a line without a colon is the only
failure (and in `read_stream` it merely ends the header block), so no
BadHeader failure for empty names exists. -/
theorem C5_header_always_parses (l b a : List Char) :
    (splitOnceAt ':' l = (b, some a) → Header.tryFrom l = .ok ⟨trim b, trim a⟩) ∧
    (splitOnceAt ':' l = (b, none) → Header.tryFrom l = .error ()) := by
  constructor
  · intro h
    simp [Header.tryFrom, h]
  · intro h
    simp [Header.tryFrom, h]

/-- C5 witness: the line `: x` parses to the header with empty name and
value `x`; a line with no colon fails. -/
theorem C5_header_always_parses_witness :
    Header.tryFrom ((": x").toList) = .ok ⟨[], ("x").toList⟩ ∧
    Header.tryFrom (("nocolon").toList) = .error () :=
  ⟨(C5_header_always_parses ((": x").toList) [] ((" x").toList)).1 rfl,
   (C5_header_always_parses (("nocolon").toList) (("nocolon").toList) []).2 rfl⟩

/-- C6: for every successfully parsed request, if the first
`Content-Length` header value parses as a non-negative integer N then
the body is present with length exactly N, and with no `Content-Length`
header there is no body; moreover, when the start line parses and the
header block carries a non-numeric `Content-Length`, parsing fails with
BadContentLength. -/
theorem C6_content_length_body (s : List Char) (req : Request) (v : List Char)
    (sl : StartLine) :
    (readStream s = .ok req →
      ((Headers.get req.headers clKey = some v →
          ∃ n b, parseUsize v = some n ∧ req.body = some b ∧ b.length = n) ∧
        (Headers.get req.headers clKey = none → req.body = none))) ∧
    (StartLine.tryFrom (readLine s).1 = .ok sl →
      Headers.get (headersLoop (readLine s).2).1 clKey = some v →
      parseUsize v = none →
      readStream s = .error .badContentLength) := by
  constructor
  · intro hok
    simp only [readStream] at hok
    split at hok
    · exact absurd hok (by simp)
    · rename_i sl2 h1
      split at hok
      · rename_i w h2
        split at hok
        · exact absurd hok (by simp)
        · rename_i n h3
          split at hok
          · rename_i h4
            simp only [Except.ok.injEq] at hok
            subst hok
            refine ⟨fun hv => ?_, fun hv => ?_⟩
            · dsimp only at hv
              rw [h2] at hv
              injection hv with hv
              subst hv
              refine ⟨n, _, h3, rfl, ?_⟩
              simp only [List.length_take]
              omega
            · dsimp only at hv
              rw [h2] at hv
              exact absurd hv (by simp)
          · exact absurd hok (by simp)
      · rename_i h2
        simp only [Except.ok.injEq] at hok
        subst hok
        refine ⟨fun hv => ?_, fun _ => rfl⟩
        dsimp only at hv
        rw [h2] at hv
        exact absurd hv (by simp)
  · intro h1 h2 h3
    simp only [readStream, h1, h2, h3]

/-- C6 witness: with `Content-Length: 3` and six stream bytes `abcdef`
after the blank line, the parsed body is exactly `abc` of length 3; with
`Content-Length: x` parsing fails with BadContentLength. -/
theorem C6_content_length_body_witness :
    (∃ n b, parseUsize (("3").toList) = some n ∧
      (Request.body ⟨⟨.get, ("/").toList⟩, [⟨clKey, ("3").toList⟩],
        some (("abc").toList)⟩) = some b ∧ b.length = n) ∧
    readStream (("GET / HTTP/1.1\r\nContent-Length: x\r\n\r\n").toList) =
      .error .badContentLength :=
  ⟨((C6_content_length_body
      (("GET / HTTP/1.1\r\nContent-Length: 3\r\n\r\nabcdef").toList)
      ⟨⟨.get, ("/").toList⟩, [⟨clKey, ("3").toList⟩], some (("abc").toList)⟩
      (("3").toList) ⟨.get, ("/").toList⟩).1 rfl).1 rfl,
   (C6_content_length_body
      (("GET / HTTP/1.1\r\nContent-Length: x\r\n\r\n").toList)
      ⟨⟨.get, []⟩, [], none⟩ (("x").toList) ⟨.get, ("/").toList⟩).2 rfl rfl rfl⟩

/-- C7: for any string of printable ASCII (hence without CR or LF), a
GET request whose target is `/echo/` followed by that string is
answered 200 OK with `Content-Type: text/plain`, a body byte-identical
to the string, and `Content-Length` equal to its length. -/
theorem C7_echo_roundtrip (s : List Char) (body : Option (List Char)) (hs : Headers)
    (cfg : Args) (fs : FS) (h : ∀ c ∈ s, 0x20 ≤ c.toNat ∧ c.toNat ≤ 0x7E) :
    dispatch .get (echoPre ++ s) body hs cfg fs =
      (.ok (("HTTP/1.1 200 OK\r\nContent-Type: text/plain\r\nContent-Length: ").toList ++
        (Nat.repr s.length).toList ++ ("\r\n\r\n").toList ++ s), fs) := by
  have h1 : hasPre echoPre (echoPre ++ s) = true := hasPre_append _ _
  have h2 : dropPre echoPre (echoPre ++ s) = s := dropPre_append _ _
  have h3 : rustLen s = s.length := rustLen_of_ascii s (fun c hc => (h c hc).2)
  simp [dispatch, h1, h2, respEcho, h3]

/-- C7 witness: echoing `abc`. -/
theorem C7_echo_roundtrip_witness :
    dispatch .get (echoPre ++ ("abc").toList) none [] ⟨none⟩ ⟨[]⟩ =
      (.ok (("HTTP/1.1 200 OK\r\nContent-Type: text/plain\r\nContent-Length: ").toList ++
        (Nat.repr (("abc").toList).length).toList ++ ("\r\n\r\n").toList ++
        ("abc").toList), ⟨[]⟩) :=
  C7_echo_roundtrip (("abc").toList) none [] ⟨none⟩ ⟨[]⟩ (by decide)

/-- C8 counterexample: the claim states that `-d <PATH>` sets
config.directory equally to `--directory <PATH>`. The argument loop
matches only the literal `--directory` and skips everything else, so
`-d /tmp` leaves the directory unset. -/
theorem C8_short_flag_ignored :
    Args.new [("-d").toList, ("/tmp").toList] = ⟨none⟩ :=
  rfl

/-- C8 amended: `--directory <PATH>` sets config.directory; the short
form `-d` is not recognized and is skipped like any other unknown
argument; when `--directory` is not given the directory is absent and
GET `/files/*` requests are answered 404 (the POST `/files/*` arm
instead panics on the absent directory, per C1). -/
theorem C8_directory_flag (acc : Option (List Char)) (v : List Char)
    (rest : List (List Char)) (p : List Char) (body : Option (List Char))
    (hs : Headers) (fs : FS) :
    (argsLoop acc (dirFlag :: v :: rest) = argsLoop (some v) rest) ∧
    (argsLoop acc (("-d").toList :: rest) = argsLoop acc rest) ∧
    (hasPre filesPre p = true →
      dispatch .get p body hs ⟨none⟩ fs = (.ok resp404, fs)) := by
  refine ⟨rfl, ?_, fun hp => ?_⟩
  · rw [argsLoop.eq_def]
    dsimp only
    rw [if_neg (by decide)]
  · match p with
    | [] => simp [hasPre, filesPre] at hp
    | c1 :: ps =>
      match ps with
      | [] => simp [hasPre, filesPre] at hp
      | c2 :: ps2 =>
        simp [hasPre, filesPre] at hp
        obtain ⟨h1, h2, _⟩ := hp
        subst h1; subst h2
        simp [dispatch, hasPre, echoPre, uaPath, filesPre]

/-- C8 witness: `--directory /tmp` records `/tmp`; a lone `-d` is
skipped; an unconfigured GET `/files/x` is answered 404. -/
theorem C8_directory_flag_witness :
    (argsLoop none [dirFlag, ("/tmp").toList] = argsLoop (some (("/tmp").toList)) []) ∧
    (argsLoop none [("-d").toList] = argsLoop none []) ∧
    (dispatch .get (("/files/x").toList) none [] ⟨none⟩ ⟨[]⟩ = (.ok resp404, ⟨[]⟩)) :=
  ⟨(C8_directory_flag none (("/tmp").toList) [] (("/files/x").toList) none [] ⟨[]⟩).1,
   (C8_directory_flag none (("/tmp").toList) [] (("/files/x").toList) none [] ⟨[]⟩).2.1,
   (C8_directory_flag none (("/tmp").toList) [] (("/files/x").toList) none [] ⟨[]⟩).2.2
     (by decide)⟩

/-- C9: a POST to a `/files/*` target with no parsed body (no
`Content-Length` header, hence `read_stream` produced no body) matches
no `/files/` arm: the POST arm requires a present body and the file GET
arm requires method GET, so the catch-all 404 answers and the
filesystem is returned unchanged — no file is created or modified. -/
theorem C9_post_without_body_404 (p : List Char) (hs : Headers) (cfg : Args)
    (fs : FS) (_hp : hasPre filesPre p = true) :
    dispatch .post p none hs cfg fs = (.ok resp404, fs) := by
  simp [dispatch]

/-- C9 witness: POST `/files/x` without a body, even with a directory
configured and files present, is answered 404 and leaves the
filesystem unchanged. -/
theorem C9_post_without_body_404_witness :
    dispatch .post (("/files/x").toList) none [] ⟨some (("/d").toList)⟩
        ⟨[((("/d/y").toList), [1, 2])]⟩ =
      (.ok resp404, ⟨[((("/d/y").toList), [1, 2])]⟩) :=
  C9_post_without_body_404 (("/files/x").toList) [] ⟨some (("/d").toList)⟩
    ⟨[((("/d/y").toList), [1, 2])]⟩ (by decide)

/-- C10: `Args::new` is total by construction (the embedding is a total
function; no error path exists in the source loop). When the
`--directory` flag is reached as the final argument the lookahead is
`None` and the directory is set to `None` — overwriting any earlier
value, so the server behaves as if unconfigured — and any argument
other than `--directory` is skipped without effect. -/
theorem C10_args_total (acc : Option (List Char)) (x : List Char)
    (rest : List (List Char)) :
    (argsLoop acc [dirFlag] = none) ∧
    (x ≠ dirFlag → argsLoop acc (x :: rest) = argsLoop acc rest) ∧
    (Args.new [dirFlag] = ⟨none⟩) := by
  refine ⟨rfl, fun hx => ?_, rfl⟩
  rw [argsLoop.eq_def]
  dsimp only
  rw [if_neg hx]

/-- C10 witness: a trailing `--directory` resets an earlier value to
`None`, and an unrecognized argument is skipped. -/
theorem C10_args_total_witness :
    (argsLoop (some (("/a").toList)) [dirFlag] = none) ∧
    (argsLoop none [("-x").toList, ("--other").toList] =
      argsLoop none [("--other").toList]) ∧
    (Args.new [dirFlag] = ⟨none⟩) :=
  ⟨(C10_args_total (some (("/a").toList)) (("-x").toList) [("--other").toList]).1,
   (C10_args_total none (("-x").toList) [("--other").toList]).2.1 (by decide),
   (C10_args_total none (("-x").toList) [("--other").toList]).2.2⟩
